import Mathlib

/-!
Shallow embedding of the acquisition subsystem of the `redpipy` library
(files `redpipy/osci.py`, `redpipy/common.py`, `redpipy/analog.py`,
`redpipy/rpwrap/constants.py`), together with theorems settling the
specification claims about it.

Real-valued quantities of the source (durations, sampling rates, trigger
levels) are modelled as rationals; Python `int(...)` conversion (truncation
toward zero) is modelled explicitly by `pyInt`.
-/

namespace RedPiPy

/-- `constants.ADC_BUFFER_SIZE = int(16 * 1024)` (on-chip ring buffer, samples). -/
def ADC_BUFFER_SIZE : ℕ := 16 * 1024

/-- `MAXIMUM_SAMPLING_RATE = 125e6` (samples per second), from `osci.py`/`analog.py`. -/
def MAXIMUM_SAMPLING_RATE : ℚ := 125000000

/-- The native decimation enum `constants.Decimation` (all 17 powers of two,
including `DEC_256`). -/
inductive Decimation where
  | DEC_1 | DEC_2 | DEC_4 | DEC_8 | DEC_16 | DEC_32 | DEC_64 | DEC_128
  | DEC_256 | DEC_512 | DEC_1024 | DEC_2048 | DEC_4096 | DEC_8192
  | DEC_16384 | DEC_32768 | DEC_65536
  deriving DecidableEq

/-- Model of `getattr(constants.Decimation, "DEC_{:d}".format(d))`: the enum
member named after the decimation factor `d`, or `none` when no member of
that name exists (Python `AttributeError`). -/
def Decimation.ofFactor : ℕ → Option Decimation
  | 1 => some .DEC_1
  | 2 => some .DEC_2
  | 4 => some .DEC_4
  | 8 => some .DEC_8
  | 16 => some .DEC_16
  | 32 => some .DEC_32
  | 64 => some .DEC_64
  | 128 => some .DEC_128
  | 256 => some .DEC_256
  | 512 => some .DEC_512
  | 1024 => some .DEC_1024
  | 2048 => some .DEC_2048
  | 4096 => some .DEC_4096
  | 8192 => some .DEC_8192
  | 16384 => some .DEC_16384
  | 32768 => some .DEC_32768
  | 65536 => some .DEC_65536
  | _ => none

/-- The members of `common.DECIMATION_VALUES` (the `Literal` type alias), in
source order. -/
def DECIMATION_VALUES : List ℕ :=
  [1, 2, 4, 8, 16, 32, 64, 128, 256, 512, 1024, 2048, 4096, 8192,
   16384, 32768, 65536]

/-- The key/value pairs of `common.DECIMATION_MAP`, in source order.  The
source dictionary has no entry for `256`. -/
def DECIMATION_MAP : List (ℕ × Decimation) :=
  [(1, .DEC_1), (2, .DEC_2), (4, .DEC_4), (8, .DEC_8), (16, .DEC_16),
   (32, .DEC_32), (64, .DEC_64), (128, .DEC_128), (512, .DEC_512),
   (1024, .DEC_1024), (2048, .DEC_2048), (4096, .DEC_4096),
   (8192, .DEC_8192), (16384, .DEC_16384), (32768, .DEC_32768),
   (65536, .DEC_65536)]

/-- Dictionary lookup `common.DECIMATION_MAP[d]`; `none` models `KeyError`. -/
def DECIMATION_MAP_lookup (d : ℕ) : Option Decimation :=
  (DECIMATION_MAP.find? (fun p => p.1 = d)).map (·.2)

/-- The native trigger source enum `constants.AcqTriggerSource`. -/
inductive AcqTriggerSource where
  | DISABLED | NOW
  | CHA_PE | CHA_NE | CHB_PE | CHB_NE
  | EXT_PE | EXT_NE | AWG_PE | AWG_NE
  deriving DecidableEq

/-- User-facing trigger source names, keys of `common.TRIGGER_MAP`. -/
inductive TriggerSourceName where
  | ch1 | ch2 | ext | int
  deriving DecidableEq

/-- The key/value pairs of `common.TRIGGER_MAP` (identical to
`osci._TRIGGER_MAP` on the shared keys), in source order.  Note the source
maps both `("ch2", True)` and `("ch2", False)` to `CHB_PE`. -/
def TRIGGER_MAP : List ((TriggerSourceName × Bool) × AcqTriggerSource) :=
  [((.ch1, true), .CHA_PE),
   ((.ch1, false), .CHA_NE),
   ((.ch2, true), .CHB_PE),
   ((.ch2, false), .CHB_PE),
   ((.ext, true), .EXT_PE),
   ((.ext, false), .EXT_NE),
   ((.int, true), .AWG_PE),
   ((.int, false), .AWG_NE)]

/-- Dictionary lookup `common.TRIGGER_MAP[(source, positive_edge)]`. -/
def TRIGGER_MAP_lookup (k : TriggerSourceName × Bool) : Option AcqTriggerSource :=
  (TRIGGER_MAP.find? (fun p => p.1 = k)).map (·.2)

/-- Trace window of a decimation factor `d`:
`ADC_BUFFER_SIZE / sampling_rate` where `sampling_rate = MAXIMUM_SAMPLING_RATE / d`
(`osci.calculate_best_decimation`, loop body). -/
def traceWindow (d : ℕ) : ℚ :=
  (ADC_BUFFER_SIZE : ℚ) / (MAXIMUM_SAMPLING_RATE / (d : ℚ))

/-- The loop of `osci.calculate_best_decimation`: starting at exponent `e`
with `fuel` iterations left, return the first decimation `2^e` whose trace
window is `≥ trace_duration`. -/
def bestDecimationFactorAux (trace_duration : ℚ) : ℕ → ℕ → Option ℕ
  | 0, _ => none
  | fuel + 1, e =>
    if trace_duration ≤ traceWindow (2 ^ e) then some (2 ^ e)
    else bestDecimationFactorAux trace_duration fuel (e + 1)

/-- `osci.calculate_best_decimation`, returning the chosen decimation factor
(the source wraps the factor into the `Decimation` enum via `getattr`,
modelled by `Decimation.ofFactor`); `none` models the `ValueError` raised
when even the largest decimation's window is too short. -/
def calculate_best_decimation (trace_duration : ℚ) : Option ℕ :=
  bestDecimationFactorAux trace_duration 17 0

/-- `osci.calculate_amount_datapoints`: `ceil(min_trace_duration *
sampling_rate)` guarded by `assert 0 < n <= ADC_BUFFER_SIZE`; `none` models
the `AssertionError`. -/
def calculate_amount_datapoints (min_trace_duration sampling_rate : ℚ) : Option ℤ :=
  let amount_datapoints : ℤ := ⌈min_trace_duration * sampling_rate⌉
  if 0 < amount_datapoints ∧ amount_datapoints ≤ (ADC_BUFFER_SIZE : ℤ) then
    some amount_datapoints
  else none

/-- Python `int(q)`: truncation toward zero. -/
def pyInt (q : ℚ) : ℤ := if 0 ≤ q then ⌊q⌋ else ⌈q⌉

/-- The `delay_units` argument of `RPAnalog.configure_timebase`. -/
inductive DelayUnits where
  | second | trace
  deriving DecidableEq

/-- `delay_samples` as computed in `RPAnalog.configure_timebase`:
`math.ceil(delay * sampling_rate)` for `"second"`, `delay * samples` for
`"trace"`. -/
def delaySamples (u : DelayUnits) (delay sampling_rate : ℚ) (samples : ℤ) : ℚ :=
  match u with
  | .second => ((⌈delay * sampling_rate⌉ : ℤ) : ℚ)
  | .trace => delay * (samples : ℚ)

/-- Errors raised by the acquisition subsystem (Python exception classes,
plus the bare `raise` in `_acquire_axi`). -/
inductive RPError where
  /-- `KeyError` from `common.DECIMATION_MAP[decimation]`. -/
  | keyError
  /-- `ValueError("Data is not ready.")` from `Data.read_or_raise`. -/
  | dataNotReady
  /-- `ValueError("Results not available, measurement canceled.")` from `Data.check`. -/
  | measurementCanceled
  /-- the bare `raise` in `_acquire_axi` when no channel is enabled. -/
  | noChannelEnabled
  /-- `ValueError("Not enought memory")` from `_acquire_axi`. -/
  | insufficientMemory
  deriving DecidableEq

/-- The controller fields written by `RPAnalog.configure_timebase`, together
with the `delay_samples` value it returns. -/
structure TimebaseState where
  samples : ℤ
  decimation : Decimation
  trigger_delay : ℤ
  delay_samples : ℚ
  deriving DecidableEq

/-- `RPAnalog.configure_timebase(samples, decimation, delay, delay_units)`:
looks the decimation factor up in `DECIMATION_MAP` (a missing key raises
`KeyError`), computes `delay_samples`, and stores
`int(delay_samples + ADC_BUFFER_SIZE * 1 / 2 - samples)` as the trigger
delay.  `sampling_rate` stands for `acq.get_sampling_rate_hz()`. -/
def configure_timebase (samples : ℤ) (decimation : ℕ) (delay : ℚ)
    (delay_units : DelayUnits) (sampling_rate : ℚ) : Except RPError TimebaseState :=
  match DECIMATION_MAP_lookup decimation with
  | none => .error .keyError
  | some dec =>
    let ds := delaySamples delay_units delay sampling_rate samples
    .ok ⟨samples, dec,
         pyInt (ds + (ADC_BUFFER_SIZE : ℚ) * 1 / 2 - (samples : ℚ)), ds⟩

/-- The native channel enum `constants.Channel` (acquisition channels). -/
inductive Channel where
  | CH_1 | CH_2
  deriving DecidableEq

/-- Device Driver API calls issued by `RPAnalog._acquire_axi`, in the order
the source makes them. -/
inductive AxiCall where
  | reset_fpga
  | get_memory_region
  | set_decimation_factor
  | axi_set_trigger_delay (ch : Channel)
  | set_buffer_samples (ch : Channel) (address samples : ℕ)
  | enable (ch : Channel)
  | set_trigger_level
  | set_trigger_delay
  | set_trigger_src
  | start
  deriving DecidableEq

/-- `sum(enabled)` for the pair of channel-enabled flags. -/
def channelCount (ch1 ch2 : Bool) : ℕ :=
  (if ch1 then 1 else 0) + (if ch2 then 1 else 0)

/-- `RPAnalog._acquire_axi`, modelled as the sequence of Device Driver API
calls it issues.  On failure the error is paired with the calls issued
before the raise.  `mem_start`/`mem_size` stand for
`acq_axi.get_memory_region()`. -/
def acquire_axi (ch1 ch2 : Bool) (samples : ℕ) (mem_start mem_size : ℕ)
    (trigger_now : Bool) : Except (RPError × List AxiCall) (List AxiCall) :=
  let calls0 := [AxiCall.reset_fpga]
  if channelCount ch1 ch2 = 0 then .error (.noChannelEnabled, calls0)
  else
    let calls1 := calls0 ++ [AxiCall.get_memory_region]
    if mem_size < 2 * samples * channelCount ch1 ch2 then
      .error (.insufficientMemory, calls1)
    else
      let starts :=
        if ch1 ∧ ¬ch2 then (mem_start, 0)
        else if ¬ch1 ∧ ch2 then (0, mem_start)
        else (mem_start, mem_start + mem_size / 2)
      let calls2 := calls1 ++ [AxiCall.set_decimation_factor]
      let calls3 := calls2 ++
        (if ch1 then
          [AxiCall.axi_set_trigger_delay .CH_1,
           AxiCall.set_buffer_samples .CH_1 starts.1 samples,
           AxiCall.enable .CH_1]
         else [])
      let calls4 := calls3 ++
        (if ch2 then
          [AxiCall.axi_set_trigger_delay .CH_2,
           AxiCall.set_buffer_samples .CH_2 starts.2 samples,
           AxiCall.enable .CH_2]
         else [])
      let calls5 := calls4 ++
        (if trigger_now then [AxiCall.set_trigger_src]
         else [AxiCall.set_trigger_level, AxiCall.set_trigger_delay,
               AxiCall.set_trigger_src])
      .ok (calls5 ++ [AxiCall.start])

/-- A raw-buffer read issued through the AXI Device Driver API: the channel
read, the position (offset) passed, and the size. -/
structure AxiRead where
  channel : Channel
  pos : ℕ
  size : ℕ
  deriving DecidableEq

/-- `ReadDataAcqAxi.get_ch1_raw` (and, but for the volt conversion,
`get_ch1`): reads channel 1 at `acq_axi.get_write_pointer_at_trig(CH_1)`.
`wp` stands for the hardware's per-channel write-pointer-at-trigger
getter. -/
def ReadDataAcqAxi.get_ch1_raw (wp : Channel → ℕ) (size : ℕ) : AxiRead :=
  ⟨.CH_1, wp .CH_1, size⟩

/-- `ReadDataAcqAxi.get_ch2_raw` (and, but for the volt conversion,
`get_ch2`): the source computes
`pos = acq_axi.get_write_pointer_at_trig(constants.Channel.CH_1)` and then
reads `acq_axi.get_data_raw(constants.Channel.CH_2, pos, self.size)`. -/
def ReadDataAcqAxi.get_ch2_raw (wp : Channel → ℕ) (size : ℕ) : AxiRead :=
  ⟨.CH_2, wp .CH_1, size⟩

/-- The lifecycle states of `analog.Data`. -/
inductive DState where
  | running | completed | canceled
  deriving DecidableEq

/-- The six derived vectors of `analog.Data`. -/
inductive Vec where
  | time_raw | time | ch1_raw | ch1 | ch2_raw | ch2
  deriving DecidableEq

/-- Which of the six `cached_property` slots of a `Data` object have been
materialized. -/
structure Cache where
  time_raw : Bool
  time : Bool
  ch1_raw : Bool
  ch1 : Bool
  ch2_raw : Bool
  ch2 : Bool
  deriving DecidableEq

def Cache.get (c : Cache) : Vec → Bool
  | .time_raw => c.time_raw
  | .time => c.time
  | .ch1_raw => c.ch1_raw
  | .ch1 => c.ch1
  | .ch2_raw => c.ch2_raw
  | .ch2 => c.ch2

def Cache.set (c : Cache) : Vec → Cache
  | .time_raw => { c with time_raw := true }
  | .time => { c with time := true }
  | .ch1_raw => { c with ch1_raw := true }
  | .ch1 => { c with ch1 := true }
  | .ch2_raw => { c with ch2_raw := true }
  | .ch2 => { c with ch2 := true }

/-- Every slot empty: the cache of a freshly constructed `Data`. -/
def Cache.empty : Cache := ⟨false, false, false, false, false, false⟩

/-- Every slot full: the cache after `_set_as_completed` materializes all six
vectors. -/
def Cache.full : Cache := ⟨true, true, true, true, true, true⟩

/-- Which Data-Reader variant a `Data` object holds (`ReadDataAcq` for the
direct on-chip path, `ReadDataAcqAxi` for the AXI-DMA path). -/
inductive ReaderKind where
  | direct | axi
  deriving DecidableEq

/-- `analog.Data`: lifecycle state, derived-vector cache, reader variant, and
the value `reader.is_data_ready(...)` would report (an environment fact,
carried as a field). -/
structure Data where
  state : DState
  cache : Cache
  reader : ReaderKind
  ready : Bool
  deriving DecidableEq

/-- `Data._set_as_completed`: sets the state to `"completed"`, stops the
hardware, and eagerly materializes (hence caches) all six derived vectors. -/
def Data.setAsCompleted (d : Data) : Data :=
  { d with state := .completed, cache := Cache.full }

/-- `Data.read_or_raise`: raises `ValueError("Data is not ready.")` when the
reader reports data not ready, else `_set_as_completed`. -/
def Data.read_or_raise (d : Data) : Except RPError Data :=
  if d.ready = false then .error .dataNotReady
  else .ok d.setAsCompleted

/-- `Data.cancel`: sets the state to `"canceled"` and stops the hardware. -/
def Data.cancel (d : Data) : Data :=
  { d with state := .canceled }

/-- `Data.check`: completed results pass; running results wait until done and
are set as completed; canceled results raise
`ValueError("Results not available, measurement canceled.")`. -/
def Data.check (d : Data) : Except RPError Data :=
  match d.state with
  | .completed => .ok d
  | .running => .ok d.setAsCompleted
  | .canceled => .error .measurementCanceled

/-- Access to one of the six `cached_property` derived vectors of `Data`: a
cached slot is returned without any check; otherwise the property body runs
`self.check()` and then materializes (caches) the vector. -/
def Data.access (d : Data) (v : Vec) : Except RPError Data :=
  if d.cache.get v then .ok d
  else (d.check).map (fun d2 => { d2 with cache := d2.cache.set v })

/-- The `RPAnalog` controller state that `acquire` consults: the configured
sample count, the channel-enabled flags, and `_last_data`. -/
structure Controller where
  samples : ℕ
  ch1_enabled : Bool
  ch2_enabled : Bool
  lastData : Option Data
  deriving DecidableEq

/-- Outcome of a successful `RPAnalog.acquire`: the prior `Data` object's
state after the call (the Python code mutates it in place), the new `Data`
returned, and the updated controller. -/
structure AcquireOut where
  prev : Option Data
  newData : Data
  ctrl : Controller
  deriving DecidableEq

/-- The path-selecting tail of `RPAnalog.acquire`, run after any prior
result has been finalized: select the AXI path iff
`_samples > ADC_BUFFER_SIZE`, run `_acquire_axi` (which may raise before
arming) or `_acquire_acq`, construct the new `Data` in `"running"` state and
store it as `_last_data`.  `prev` is the prior `Data` object's state after
finalization. -/
def RPAnalog.acquireArm (c : Controller) (prev : Option Data)
    (trigger_now hw_ready : Bool) (mem_start mem_size : ℕ) :
    Except RPError AcquireOut :=
  if ADC_BUFFER_SIZE < c.samples then
    match acquire_axi c.ch1_enabled c.ch2_enabled c.samples mem_start mem_size
        trigger_now with
    | .error e => .error e.1
    | .ok _ =>
      let nd : Data := ⟨.running, Cache.empty, .axi, hw_ready⟩
      .ok ⟨prev, nd, { c with lastData := some nd }⟩
  else
    let nd : Data := ⟨.running, Cache.empty, .direct, hw_ready⟩
    .ok ⟨prev, nd, { c with lastData := some nd }⟩

/-- The head of `RPAnalog.acquire`: if `_last_data` exists and is still
`"running"`, finalize it via `read_or_raise` (propagating its error);
returns the prior `Data` object's state after the call. -/
def RPAnalog.finalizePrev : Option Data → Except RPError (Option Data)
  | none => .ok none
  | some d =>
    if d.state = .running then
      match d.read_or_raise with
      | .error e => .error e
      | .ok d2 => .ok (some d2)
    else .ok (some d)

/-- `RPAnalog.acquire(trigger_now)`: finalize any still-running prior result
(`RPAnalog.finalizePrev`), then arm the selected data path
(`RPAnalog.acquireArm`).  `mem_start`/`mem_size` stand for
`acq_axi.get_memory_region()` and `hw_ready` for what the new reader's
`is_data_ready` will report. -/
def RPAnalog.acquire (c : Controller) (trigger_now hw_ready : Bool)
    (mem_start mem_size : ℕ) : Except RPError AcquireOut :=
  (RPAnalog.finalizePrev c.lastData).bind
    (fun prev => RPAnalog.acquireArm c prev trigger_now hw_ready mem_start mem_size)

end RedPiPy

deriving instance DecidableEq for Except

namespace RedPiPy

/-- Characterization of the decimation-search loop: a successful search from
exponent `e` with `fuel` steps returns `2 ^ k` for the least `k ≥ e` (within
the fuel) whose trace window covers the requested duration. -/
theorem bestDecimationFactorAux_spec (t : ℚ) :
    ∀ (fuel e d : ℕ), bestDecimationFactorAux t fuel e = some d →
      ∃ k, e ≤ k ∧ k < e + fuel ∧ d = 2 ^ k ∧ t ≤ traceWindow (2 ^ k) ∧
        ∀ j, e ≤ j → j < k → ¬ t ≤ traceWindow (2 ^ j) := by
  intro fuel
  induction fuel with
  | zero =>
    intro e d h
    simp [bestDecimationFactorAux] at h
  | succ n ih =>
    intro e d h
    rw [bestDecimationFactorAux] at h
    by_cases hc : t ≤ traceWindow (2 ^ e)
    · rw [if_pos hc] at h
      obtain rfl : 2 ^ e = d := by simpa using h
      exact ⟨e, le_refl e, by omega, rfl, hc, fun j hj1 hj2 => absurd hj1 (by omega)⟩
    · rw [if_neg hc] at h
      obtain ⟨k, hk1, hk2, hk3, hk4, hk5⟩ := ih (e + 1) d h
      refine ⟨k, by omega, by omega, hk3, hk4, ?_⟩
      intro j hj1 hj2
      rcases Nat.eq_or_lt_of_le hj1 with rfl | hlt
      · exact hc
      · exact hk5 j (by omega) hj2

/-- C1: for every duration, `calculate_best_decimation` returns a supported
decimation (a power of two `2 ^ k`, `k < 17`, with its enum member defined)
whose trace window is at least the requested duration, and every smaller
supported decimation's window is strictly shorter; in particular, for every
supported decimation `2 ^ k`, requesting exactly its maximum window
`ADC_BUFFER_SIZE / (MAXIMUM_SAMPLING_RATE / 2 ^ k)` returns exactly `2 ^ k`,
not the next decimation. -/
theorem calculate_best_decimation_spec :
    (∀ (t : ℚ) (d : ℕ), calculate_best_decimation t = some d →
        (∃ k, k < 17 ∧ d = 2 ^ k) ∧ t ≤ traceWindow d ∧
        (Decimation.ofFactor d).isSome = true ∧
        ∀ j, j < 17 → 2 ^ j < d → traceWindow (2 ^ j) < t) ∧
    (∀ k, k < 17 → calculate_best_decimation (traceWindow (2 ^ k)) = some (2 ^ k)) := by
  constructor
  · intro t d h
    obtain ⟨k, -, hk2, rfl, hk4, hk5⟩ := bestDecimationFactorAux_spec t 17 0 d h
    refine ⟨⟨k, by omega, rfl⟩, hk4, ?_, ?_⟩
    · interval_cases k <;> decide
    · intro j hj hjd
      have hjk : j < k := (Nat.pow_lt_pow_iff_right (by norm_num)).mp hjd
      exact lt_of_not_le (hk5 j (Nat.zero_le j) hjk)
  · intro k hk
    interval_cases k <;>
      norm_num [calculate_best_decimation, bestDecimationFactorAux, traceWindow,
        ADC_BUFFER_SIZE, MAXIMUM_SAMPLING_RATE]

/-- Witness for C1: requesting exactly the maximum window of decimation
`2 ^ 3 = 8` returns decimation `8`. -/
theorem calculate_best_decimation_spec_witness :
    calculate_best_decimation (traceWindow (2 ^ 3)) = some (2 ^ 3) :=
  calculate_best_decimation_spec.2 3 (by norm_num)

/-- C2 (code evaluation): the `(source, positive_edge) -> AcqTriggerSource`
table is NOT injective as written: the two distinct keys `("ch2", True)` and
`("ch2", False)` both map to `CHB_PE` (and `CHB_NE` is never a value of the
table), so the claimed one-to-one association fails on the source. -/
theorem TRIGGER_MAP_not_injective :
    TRIGGER_MAP_lookup (.ch2, true) = some .CHB_PE ∧
    TRIGGER_MAP_lookup (.ch2, false) = some .CHB_PE ∧
    ((TriggerSourceName.ch2, true) : TriggerSourceName × Bool) ≠ (.ch2, false) ∧
    (TRIGGER_MAP.all fun p => !(p.2 == AcqTriggerSource.CHB_NE)) = true := by
  decide

/-- C9 (code evaluation): the AXI reader's channel-2 read-out passes channel
1's write-pointer-at-trigger as the memory offset — for every write-pointer
state `wp`, `get_ch2_raw` reads channel `CH_2` at offset `wp CH_1`; at a
state where the two pointers differ (5 vs 7), the offset used (5) is not
channel 2's own pointer (7). -/
theorem get_ch2_raw_uses_ch1_pointer :
    (∀ (wp : Channel → ℕ) (size : ℕ),
        ReadDataAcqAxi.get_ch2_raw wp size =
          ⟨Channel.CH_2, wp Channel.CH_1, size⟩) ∧
    ((ReadDataAcqAxi.get_ch2_raw
        (fun ch => match ch with | .CH_1 => 5 | .CH_2 => 7) 100).pos = 5 ∧
      (5 : ℕ) ≠ 7) := by
  exact ⟨fun wp size => rfl, rfl, by decide⟩

/-- C10: `256` is listed among the accepted decimation values
(`DECIMATION_VALUES`, which is exactly the powers of two `2^0 .. 2^16`), yet
`DECIMATION_MAP` has no entry for it, so `configure_timebase` with
`decimation = 256` fails with a `KeyError` for every other argument, while
every other listed decimation value has a map entry. -/
theorem decimation_map_omits_256 :
    256 ∈ DECIMATION_VALUES ∧
    DECIMATION_VALUES = (List.range 17).map (2 ^ ·) ∧
    DECIMATION_MAP_lookup 256 = none ∧
    (∀ (s : ℤ) (dl r : ℚ) (u : DelayUnits),
        configure_timebase s 256 dl u r = .error .keyError) ∧
    (DECIMATION_VALUES.all
        fun v => (v == 256) || (DECIMATION_MAP_lookup v).isSome) = true := by
  refine ⟨by decide, by decide, by decide, ?_, by decide⟩
  intro s dl r u
  have h256 : DECIMATION_MAP_lookup 256 = none := by decide
  unfold configure_timebase
  rw [h256]

/-- C8: for a nonnegative fixed sampling rate, `calculate_amount_datapoints`
is monotonically non-decreasing in the duration argument (on inputs where
the assertion passes), and it returns exactly
`ceil(min_duration * sampling_rate)` whenever that value lies in
`(0, ADC_BUFFER_SIZE]`. -/
theorem calculate_amount_datapoints_spec :
    (∀ (r t1 t2 : ℚ) (n1 n2 : ℤ), 0 ≤ r → t1 ≤ t2 →
        calculate_amount_datapoints t1 r = some n1 →
        calculate_amount_datapoints t2 r = some n2 → n1 ≤ n2) ∧
    (∀ (t r : ℚ), 0 < ⌈t * r⌉ → ⌈t * r⌉ ≤ (ADC_BUFFER_SIZE : ℤ) →
        calculate_amount_datapoints t r = some ⌈t * r⌉) := by
  constructor
  · intro r t1 t2 n1 n2 hr h12 h1 h2
    unfold calculate_amount_datapoints at h1 h2
    dsimp only at h1 h2
    split_ifs at h1 h2
    obtain rfl : (⌈t1 * r⌉ : ℤ) = n1 := by simpa using h1
    obtain rfl : (⌈t2 * r⌉ : ℤ) = n2 := by simpa using h2
    exact Int.ceil_le_ceil (mul_le_mul_of_nonneg_right h12 hr)
  · intro t r h1 h2
    unfold calculate_amount_datapoints
    rw [if_pos ⟨h1, h2⟩]

/-- Witness for C8: with sampling rate 10, durations 1/2 ≤ 1 give sample
counts 5 ≤ 10, and the count for duration 1 is exactly `ceil(1 * 10)`. -/
theorem calculate_amount_datapoints_spec_witness :
    (5 : ℤ) ≤ 10 ∧ calculate_amount_datapoints 1 10 = some ⌈(1 : ℚ) * 10⌉ :=
  ⟨calculate_amount_datapoints_spec.1 10 (1/2) 1 5 10 (by norm_num) (by norm_num)
      (by norm_num [calculate_amount_datapoints, ADC_BUFFER_SIZE])
      (by norm_num [calculate_amount_datapoints, ADC_BUFFER_SIZE]),
   calculate_amount_datapoints_spec.2 1 10 (by norm_num) (by norm_num [ADC_BUFFER_SIZE])⟩

/-- Python `int()` is the identity on integer-valued rationals. -/
theorem pyInt_intCast (z : ℤ) : pyInt (z : ℚ) = z := by
  unfold pyInt
  split_ifs <;> simp

/-- C3 counterexample: with `samples = 1023`, `delay = 1/2`, units
`"trace"`, the code programs `trigger_delay = int(7680.5) = 7680`, which is
not equal to `delay_samples + ADC_BUFFER_SIZE/2 - samples = 7680.5`: the
claimed exact formula fails for every non-integral `delay * samples`. -/
theorem configure_timebase_delay_not_exact :
    (configure_timebase 1023 1 (1/2) .trace 125000000).map
        TimebaseState.trigger_delay = .ok 7680 ∧
    ((7680 : ℚ) ≠
      delaySamples .trace (1/2) 125000000 1023 +
        (ADC_BUFFER_SIZE : ℚ) * 1 / 2 - (1023 : ℤ)) := by
  constructor
  · norm_num [configure_timebase, DECIMATION_MAP_lookup, DECIMATION_MAP,
      List.find?, delaySamples, pyInt, ADC_BUFFER_SIZE, Except.map]
  · norm_num [delaySamples, ADC_BUFFER_SIZE]

/-- C3 (amended): the trigger delay programmed by `configure_timebase` is
the truncation toward zero (`pyInt`) of
`delay_samples + ADC_BUFFER_SIZE/2 - samples`; it equals that expression
exactly whenever `delay_samples` is integer-valued (in particular always for
units `"second"`, where `delay_samples` is a `ceil`); the scenario
`samples = 1024`, `decimation = 1`, `delay = 0.5`, units `"trace"` programs
`trigger_delay = 7680`. -/
theorem configure_timebase_trigger_delay_spec :
    (∀ (samples : ℤ) (delay r : ℚ) (u : DelayUnits) (dec : ℕ) (st : TimebaseState),
        configure_timebase samples dec delay u r = .ok st →
        st.trigger_delay =
          pyInt (delaySamples u delay r samples +
            (ADC_BUFFER_SIZE : ℚ) * 1 / 2 - (samples : ℚ)) ∧
        (∀ z : ℤ, delaySamples u delay r samples = (z : ℚ) →
          (st.trigger_delay : ℚ) =
            delaySamples u delay r samples +
              (ADC_BUFFER_SIZE : ℚ) * 1 / 2 - (samples : ℚ))) ∧
    (configure_timebase 1024 1 (1/2) .trace 125000000).map
        TimebaseState.trigger_delay = .ok 7680 := by
  constructor
  · intro samples delay r u dec st h
    unfold configure_timebase at h
    cases hdec : DECIMATION_MAP_lookup dec with
    | none => rw [hdec] at h; exact absurd h (by simp)
    | some d0 =>
      rw [hdec] at h
      obtain rfl : st = ⟨samples, d0,
          pyInt (delaySamples u delay r samples +
            (ADC_BUFFER_SIZE : ℚ) * 1 / 2 - (samples : ℚ)),
          delaySamples u delay r samples⟩ := by
        simpa using h.symm
      refine ⟨rfl, ?_⟩
      intro z hz
      have : delaySamples u delay r samples +
          (ADC_BUFFER_SIZE : ℚ) * 1 / 2 - (samples : ℚ) =
          ((z + 8192 - samples : ℤ) : ℚ) := by
        rw [hz]
        push_cast
        norm_num [ADC_BUFFER_SIZE]
      simp only [TimebaseState.trigger_delay, this, pyInt_intCast]
  · norm_num [configure_timebase, DECIMATION_MAP_lookup, DECIMATION_MAP,
      List.find?, delaySamples, pyInt, ADC_BUFFER_SIZE, Except.map]

/-- Witness for C3 (amended): applying the theorem at the scenario
`samples = 1024`, `delay = 1/2`, units `"trace"`: the programmed trigger
delay `7680` equals `512 + 16384/2 - 1024` exactly. -/
theorem configure_timebase_trigger_delay_spec_witness :
    (((⟨1024, .DEC_1, 7680, 512⟩ : TimebaseState).trigger_delay : ℚ) =
      delaySamples .trace (1/2) 125000000 1024 +
        (ADC_BUFFER_SIZE : ℚ) * 1 / 2 - ((1024 : ℤ) : ℚ)) :=
  (configure_timebase_trigger_delay_spec.1 1024 (1/2) 125000000 .trace 1
      ⟨1024, .DEC_1, 7680, 512⟩
      (by norm_num [configure_timebase, DECIMATION_MAP_lookup, DECIMATION_MAP,
        List.find?, delaySamples, pyInt, ADC_BUFFER_SIZE])).2
    512 (by norm_num [delaySamples])

/-- C4: on the AXI path with at least one channel enabled, whenever
`2 bytes * samples * enabled_channel_count` exceeds the reserved region's
byte size, `_acquire_axi` fails with the insufficient-memory error, and the
only Device Driver API calls made before the raise are `reset_fpga` and
`get_memory_region` — in particular no `enable` and no
`set_buffer_samples`. -/
theorem acquire_axi_insufficient_memory :
    ∀ (ch1 ch2 : Bool) (samples mem_start mem_size : ℕ) (tn : Bool),
      (ch1 = true ∨ ch2 = true) →
      mem_size < 2 * samples * channelCount ch1 ch2 →
      acquire_axi ch1 ch2 samples mem_start mem_size tn =
        .error (.insufficientMemory,
          [AxiCall.reset_fpga, AxiCall.get_memory_region]) ∧
      ∀ (ch : Channel) (a n : ℕ),
        AxiCall.enable ch ∉ [AxiCall.reset_fpga, AxiCall.get_memory_region] ∧
        AxiCall.set_buffer_samples ch a n ∉
          [AxiCall.reset_fpga, AxiCall.get_memory_region] := by
  intro ch1 ch2 samples mem_start mem_size tn hen hmem
  have hcount : channelCount ch1 ch2 ≠ 0 := by
    cases ch1 <;> cases ch2 <;> simp_all [channelCount]
  refine ⟨?_, fun ch a n => ⟨by simp, by simp⟩⟩
  unfold acquire_axi
  rw [if_neg hcount, if_pos hmem]
  rfl

/-- Witness for C4: both channels enabled, `samples = 300000`, reserved
region of 1,000,000 bytes: `2 * 300000 * 2 = 1,200,000 > 1,000,000`, so
`_acquire_axi` fails with the insufficient-memory error having issued only
`reset_fpga` and `get_memory_region`. -/
theorem acquire_axi_insufficient_memory_witness :
    acquire_axi true true 300000 0 1000000 false =
      .error (.insufficientMemory,
        [AxiCall.reset_fpga, AxiCall.get_memory_region]) :=
  (acquire_axi_insufficient_memory true true 300000 0 1000000 false
    (Or.inl rfl) (by norm_num [channelCount])).1

/-- The arm step always records the given finalized previous result and
returns a fresh `Data` in `"running"` state whose reader variant is the AXI
one iff the configured sample count exceeds the ring-buffer capacity. -/
theorem acquireArm_ok (c : Controller) (prev : Option Data)
    (tn hw : Bool) (ms mz : ℕ) (out : AcquireOut) :
    RPAnalog.acquireArm c prev tn hw ms mz = .ok out →
      out.prev = prev ∧ out.newData.state = .running ∧
      (out.newData.reader = .axi ↔ ADC_BUFFER_SIZE < c.samples) := by
  unfold RPAnalog.acquireArm
  split_ifs with hs
  · cases hax : acquire_axi c.ch1_enabled c.ch2_enabled c.samples ms mz tn with
    | error e => simp
    | ok calls =>
      intro h
      obtain rfl : out = ⟨prev, ⟨.running, Cache.empty, .axi, hw⟩,
          { c with lastData := some ⟨.running, Cache.empty, .axi, hw⟩ }⟩ := by
        simpa using h.symm
      exact ⟨rfl, rfl, by simp [hs]⟩
  · intro h
    obtain rfl : out = ⟨prev, ⟨.running, Cache.empty, .direct, hw⟩,
        { c with lastData := some ⟨.running, Cache.empty, .direct, hw⟩ }⟩ := by
      simpa using h.symm
    refine ⟨rfl, rfl, ?_⟩
    simp only [show (⟨prev, ⟨.running, Cache.empty, .direct, hw⟩,
      { c with lastData := some ⟨.running, Cache.empty, .direct, hw⟩ }⟩ :
        AcquireOut).newData.reader = .direct from rfl]
    constructor
    · intro h2; exact absurd h2 (by simp)
    · intro h2; exact absurd h2 hs

/-- `Except.bind` on a success. -/
theorem except_bind_ok {α β ε : Type} (x : α) (f : α → Except ε β) :
    Except.bind (.ok x) f = f x := rfl

/-- `Except.bind` on a failure. -/
theorem except_bind_error {α β ε : Type} (e : ε) (f : α → Except ε β) :
    Except.bind (.error e) f = .error e := rfl

/-- Every successful `acquire` goes through the arm step. -/
theorem acquire_ok_of_arm (c : Controller) (tn hw : Bool) (ms mz : ℕ)
    (out : AcquireOut) :
    RPAnalog.acquire c tn hw ms mz = .ok out →
      ∃ prev, RPAnalog.acquireArm c prev tn hw ms mz = .ok out := by
  unfold RPAnalog.acquire
  cases hf : RPAnalog.finalizePrev c.lastData with
  | error e => rw [except_bind_error]; intro h; exact Except.noConfusion h
  | ok prev => rw [except_bind_ok]; exact fun h => ⟨prev, h⟩

/-- C5: a successful `acquire()` hands out a `Data` whose reader is the
AXI-DMA variant exactly when the configured sample count exceeds the
on-chip ring-buffer capacity (`ADC_BUFFER_SIZE = 16384`), and the direct
variant otherwise. -/
theorem acquire_path_selection :
    ∀ (c : Controller) (tn hw : Bool) (ms mz : ℕ) (out : AcquireOut),
      RPAnalog.acquire c tn hw ms mz = .ok out →
      (out.newData.reader = .axi ↔ ADC_BUFFER_SIZE < c.samples) := by
  intro c tn hw ms mz out h
  obtain ⟨prev, harm⟩ := acquire_ok_of_arm c tn hw ms mz out h
  exact (acquireArm_ok c prev tn hw ms mz out harm).2.2

/-- Witness for C5: a controller configured with 20000 > 16384 samples (one
channel enabled, ample reserved memory) acquires through the AXI reader. -/
theorem acquire_path_selection_witness :
    (⟨none, ⟨.running, Cache.empty, .axi, true⟩,
        ⟨20000, true, false, some ⟨.running, Cache.empty, .axi, true⟩⟩⟩ :
      AcquireOut).newData.reader = .axi :=
  (acquire_path_selection ⟨20000, true, false, none⟩ false true 0 1000000
      ⟨none, ⟨.running, Cache.empty, .axi, true⟩,
        ⟨20000, true, false, some ⟨.running, Cache.empty, .axi, true⟩⟩⟩
      (by decide)).mpr (by decide)

/-- C6: if `acquire()` is called while the prior `Data` is still
`"running"`, the prior is finalized through `read_or_raise` first: when the
prior's reader reports not-ready, `acquire` fails with the data-not-ready
error and no new acquisition starts; when `acquire` succeeds, the prior
object has been set as completed (its state is `"completed"`, no longer
`"running"`) while the single new `Data` is the only one `"running"`. -/
theorem acquire_finalizes_running :
    ∀ (c : Controller) (tn hw : Bool) (ms mz : ℕ) (d : Data),
      c.lastData = some d → d.state = .running →
      (d.ready = false → RPAnalog.acquire c tn hw ms mz = .error .dataNotReady) ∧
      (∀ out, RPAnalog.acquire c tn hw ms mz = .ok out →
        out.prev = some d.setAsCompleted ∧
        (∀ p, out.prev = some p → p.state = .completed ∧ p.state ≠ .running) ∧
        out.newData.state = .running) := by
  intro c tn hw ms mz d hlast hrun
  have hfin : ∀ r, d.read_or_raise = r →
      RPAnalog.finalizePrev c.lastData = r.map some := by
    intro r hr
    rw [hlast]
    simp only [RPAnalog.finalizePrev, if_pos hrun, hr]
    cases r <;> rfl
  constructor
  · intro hready
    have hr : d.read_or_raise = .error .dataNotReady := by
      unfold Data.read_or_raise
      rw [if_pos hready]
    unfold RPAnalog.acquire
    rw [hfin _ hr]
    rfl
  · intro out h
    have hready : d.ready = true := by
      cases hready : d.ready with
      | false =>
        have hr : d.read_or_raise = .error .dataNotReady := by
          unfold Data.read_or_raise
          rw [if_pos hready]
        unfold RPAnalog.acquire at h
        rw [hfin _ hr] at h
        exact Except.noConfusion h
      | true => rfl
    have hr : d.read_or_raise = .ok d.setAsCompleted := by
      unfold Data.read_or_raise
      rw [if_neg (by rw [hready]; simp)]
    unfold RPAnalog.acquire at h
    rw [hfin _ hr] at h
    obtain ⟨hprev, hstate, -⟩ := acquireArm_ok c (some d.setAsCompleted)
      tn hw ms mz out h
    refine ⟨hprev, ?_, hstate⟩
    intro p hp
    rw [hprev] at hp
    obtain rfl : d.setAsCompleted = p := by simpa using hp
    exact ⟨rfl, by simp [Data.setAsCompleted]⟩

/-- Witness for C6: a controller whose `_last_data` is a running, ready
`Data` (1024 samples, direct path): the successful `acquire` carries the
prior result out in `"completed"` state. -/
theorem acquire_finalizes_running_witness :
    RPAnalog.acquire ⟨1024, true, false,
        some ⟨.running, Cache.empty, .direct, true⟩⟩ false true 0 0 =
      .ok ⟨some ⟨.completed, Cache.full, .direct, true⟩,
        ⟨.running, Cache.empty, .direct, true⟩,
        ⟨1024, true, false, some ⟨.running, Cache.empty, .direct, true⟩⟩⟩ ∧
    (⟨some ⟨.completed, Cache.full, .direct, true⟩,
        ⟨.running, Cache.empty, .direct, true⟩,
        ⟨1024, true, false, some ⟨.running, Cache.empty, .direct, true⟩⟩⟩ :
      AcquireOut).prev =
        some (Data.setAsCompleted ⟨.running, Cache.empty, .direct, true⟩) := by
  have h : RPAnalog.acquire ⟨1024, true, false,
      some ⟨.running, Cache.empty, .direct, true⟩⟩ false true 0 0 =
      .ok ⟨some ⟨.completed, Cache.full, .direct, true⟩,
        ⟨.running, Cache.empty, .direct, true⟩,
        ⟨1024, true, false, some ⟨.running, Cache.empty, .direct, true⟩⟩⟩ := by
    decide
  exact ⟨h, ((acquire_finalizes_running _ false true 0 0 _ rfl rfl).2 _ h).1⟩

/-- C7 counterexample: a `Data` finalized by `read_or_raise` (all six
vectors materialized and cached) and then canceled does NOT raise on a
derived-vector access: the cached slot is returned without any state check,
so the access succeeds instead of raising the measurement-canceled error. -/
theorem data_cancel_after_completed_access_succeeds :
    Data.read_or_raise ⟨.running, Cache.empty, .direct, true⟩ =
      .ok ⟨.completed, Cache.full, .direct, true⟩ ∧
    (Data.cancel ⟨.completed, Cache.full, .direct, true⟩).state = .canceled ∧
    Data.access (Data.cancel ⟨.completed, Cache.full, .direct, true⟩) .time_raw =
      .ok (Data.cancel ⟨.completed, Cache.full, .direct, true⟩) ∧
    Data.access (Data.cancel ⟨.completed, Cache.full, .direct, true⟩) .time_raw ≠
      .error .measurementCanceled := by
  decide

/-- C7 (amended): on a canceled `Data`, access to any derived vector that
has not been materialized raises the measurement-canceled error, and no
access on a canceled `Data` ever raises the data-not-ready error. -/
theorem data_canceled_access_raises :
    ∀ (d : Data) (v : Vec), d.state = .canceled →
      Data.access d v ≠ .error .dataNotReady ∧
      (d.cache.get v = false → Data.access d v = .error .measurementCanceled) := by
  intro d v hst
  unfold Data.access Data.check
  rw [hst]
  cases hc : d.cache.get v with
  | false => simp [Except.map]
  | true => simp

/-- Witness for C7 (amended): a freshly canceled `Data` with empty cache
raises the measurement-canceled error on a `time_raw` access. -/
theorem data_canceled_access_raises_witness :
    Data.access ⟨.canceled, Cache.empty, .direct, true⟩ .time_raw =
      .error .measurementCanceled :=
  (data_canceled_access_raises ⟨.canceled, Cache.empty, .direct, true⟩
    .time_raw rfl).2 rfl

end RedPiPy
